import Mathlib

/-!
Verification development for the IPTV backend core
(`backend/app/services/iptv.py`, `backend/app/services/cache.py`,
`backend/app/routes/channels.py`).

The Python code is shallowly embedded: strings are Lean `String`s and all
string primitives used by the code (strip, lower, startswith, split,
`in`-substring tests, `str.replace(_, _, 1)`, the `ATTR_RE` regex scan) are
implemented character-by-character below, mirroring the CPython semantics the
code relies on.  Python dicts whose key sets matter are embedded as Lean
structures with `Option` fields (field present / absent), and dicts used as
maps are embedded as association lists with Python's insertion-order,
last-write-wins update.  Machine integers do not overflow in this code, so
counts are `Int`/`Nat`.  Wall-clock time is passed in explicitly (`now`,
timestamp strings), and `datetime.fromisoformat` is abstracted as a partial
parse function to an instant on a single comparable axis.
-/

namespace IPTV

/-! ## Character-level string primitives (CPython semantics) -/

/-- Python `str.strip()` (whitespace at both ends). -/
def trimS (s : String) : String :=
  String.mk (((s.toList.dropWhile Char.isWhitespace).reverse.dropWhile Char.isWhitespace).reverse)

/-- Python `str.lower()` (ASCII-adequate). -/
def lowerS (s : String) : String :=
  String.mk (s.toList.map Char.toLower)

/-- Python `s.startswith(pre)`. -/
def startsWithS (s pre : String) : Bool :=
  pre.toList.isPrefixOf s.toList

/-- Whether `needle` occurs as a contiguous sublist of `hay`. -/
def infixOfB (needle : List Char) : List Char → Bool
  | [] => needle.isEmpty
  | c :: cs => needle.isPrefixOf (c :: cs) || infixOfB needle cs

/-- Python `needle in hay` for strings (substring test). -/
def containsSub (hay needle : String) : Bool :=
  infixOfB needle.toList hay.toList

/-- Whether a single character occurs in a string. -/
def containsChar (s : String) (c : Char) : Bool :=
  s.toList.contains c

/-- Split at the first occurrence of `sep`; `none` when `sep` does not occur.
Mirrors Python `s.split(sep, 1)` unpacked into two variables (which raises
`ValueError` exactly when the separator is absent). -/
def splitFirst (sep : Char) : List Char → Option (List Char × List Char)
  | [] => none
  | c :: cs =>
    if c = sep then some ([], cs)
    else (splitFirst sep cs).map (fun p => (c :: p.1, p.2))

/-- Python `s.split(sep, 1)` on strings, `none` when `sep` is absent. -/
def splitFirstS (s : String) (sep : Char) : Option (String × String) :=
  (splitFirst sep s.toList).map (fun p => (String.mk p.1, String.mk p.2))

/-- Remove the first occurrence of `pat` (Python `s.replace(pat, "", 1)`). -/
def removeFirstAux (pat : List Char) : List Char → List Char
  | [] => []
  | c :: cs =>
    if pat.isPrefixOf (c :: cs) then (c :: cs).drop pat.length
    else c :: removeFirstAux pat cs

/-- Python `s.replace(pat, "", 1)` on strings. -/
def removeFirstS (s pat : String) : String :=
  String.mk (removeFirstAux pat.toList s.toList)

/-- Python `splitlines()` restricted to `\n` separators.  (The parser strips
every line before use, and blank lines are skipped, so the trailing-empty-line
and `\r\n` differences of CPython `splitlines` are immaterial there.) -/
def splitLinesAux (acc : List Char) : List Char → List String
  | [] => [String.mk acc.reverse]
  | c :: cs =>
    if c = '\n' then String.mk acc.reverse :: splitLinesAux [] cs
    else splitLinesAux (c :: acc) cs

/-- Split a playlist text into lines. -/
def splitLinesS (s : String) : List String :=
  splitLinesAux [] s.toList

/-! ## Python dict as an association list
(insertion order kept, last write wins, exactly like CPython `dict`). -/

/-- `d[k] = v` on a Python dict. -/
def dictInsert (k v : String) : List (String × String) → List (String × String)
  | [] => [(k, v)]
  | (k', v') :: rest =>
    if k' = k then (k, v) :: rest else (k', v') :: dictInsert k v rest

/-- `d.get(k)` on a Python dict. -/
def dictGet (d : List (String × String)) (k : String) : Option String :=
  (d.find? (fun kv => kv.1 == k)).map (·.2)

/-! ## `backend/app/services/iptv.py` — parser -/

/-- `ATTR_RE = re.compile(r'([A-Za-z0-9_-]+)="([^"]*)"')`: the characters a
key may consist of. -/
def isAttrKeyChar (c : Char) : Bool :=
  c.isAlphanum || c = '_' || c = '-'

/-- `ATTR_RE.findall(meta)`: left-to-right, non-overlapping matches of
`key="value"`.  The fuel argument is an upper bound on the scan length; every
step consumes at least one character, so `length + 1` fuel is always enough. -/
def attrScan : Nat → List Char → List (String × String)
  | 0, _ => []
  | _ + 1, [] => []
  | fuel + 1, c :: cs =>
    if isAttrKeyChar c then
      match cs.dropWhile isAttrKeyChar with
      | '=' :: '"' :: rest2 =>
        (match rest2.dropWhile (fun d => ¬ d = '"') with
         | '"' :: rest4 =>
           (String.mk (c :: cs.takeWhile isAttrKeyChar),
            String.mk (rest2.takeWhile (fun d => ¬ d = '"'))) :: attrScan fuel rest4
         | _ => [])
      | rest => attrScan fuel rest
    else attrScan fuel cs

/-- `ATTR_RE.findall` on a string. -/
def attrFindall (s : String) : List (String × String) :=
  attrScan (s.toList.length + 1) s.toList

/-- The `attrs` dict built in `_parse_extinf_line`:
`for key, value in ATTR_RE.findall(meta): attrs[key] = value.strip()`. -/
def buildAttrs (pairs : List (String × String)) : List (String × String) :=
  pairs.foldl (fun d kv => dictInsert kv.1 (trimS kv.2) d) []

/-- `_safe_text(value, fallback)`. -/
def safeText (value : Option String) (fallback : String) : String :=
  let cleaned := trimS (value.getD "")
  if cleaned = "" then fallback else cleaned

/-- `_parse_extinf_line(line) -> (attrs, display_name)`; `Except` carries the
`ValueError` messages raised by the Python function. -/
def parseExtinfLine (line : String) :
    Except String (List (String × String) × String) :=
  if ¬ startsWithS line "#EXTINF" then .error "Not an EXTINF line"
  else
    match splitFirstS line ',' with
    | none => .error "EXTINF line missing display name"
    | some (meta, displayName) =>
      let meta1 := removeFirstS meta "#EXTINF:"
      let meta2 := trimS (removeFirstS meta1 "-1")
      .ok (buildAttrs (attrFindall meta2), trimS displayName)

/-- `CATEGORY_KEYWORDS` table, in source order. -/
def CATEGORY_KEYWORDS : List (String × List String) :=
  [("movies", ["movie", "movies", "vod", "film", "cinema"]),
   ("series", ["series", "shows", "show", "season", "episode"]),
   ("tv", ["live", "tv", "sports", "sport", "news", "kids", "music",
           "entertainment"])]

/-- `ALLOWED_CATEGORIES`. -/
def ALLOWED_CATEGORIES : List String := ["tv", "movies", "series", "other"]

/-- `normalize_category(group)`. -/
def normalizeCategory (group : String) : String :=
  let normalized := lowerS (trimS group)
  if normalized = "" then "other"
  else
    match CATEGORY_KEYWORDS.findSome?
        (fun p => if p.2.any (fun kw => containsSub normalized kw)
                  then some p.1 else none) with
    | some c => c
    | none => "other"

/-- `coerce_category(category, group)`; `category`/`group` are `None`-able in
Python, hence `Option String`. -/
def coerceCategory (category : Option String) (group : Option String) : String :=
  let normalized := lowerS (trimS (category.getD ""))
  if ALLOWED_CATEGORIES.contains normalized then normalized
  else
    -- `normalize_category(group or normalized)`
    let g := match group with
      | none => normalized
      | some s => if s = "" then normalized else s
    normalizeCategory g

/-- `_derive_group(attrs)`. -/
def deriveGroup (attrs : List (String × String)) : String :=
  match (["group-title", "group", "category", "type", "tvg-group"] :
      List String).findSome?
      (fun k => match dictGet attrs k with
        | some v => if ¬ trimS v = "" then some (trimS v) else none
        | none => none) with
  | some g => g
  | none => "Unknown"

/-- A channel dictionary as produced by `parse_m3u` (keys `tvg_id`…`tvg_chno`
are present only when non-empty, hence `Option`). -/
structure Channel where
  name : String
  group : String
  category : String
  url : String
  tvg_id : Option String
  tvg_name : Option String
  tvg_logo : Option String
  tvg_chno : Option String
deriving DecidableEq, Repr

/-- The `pending` dict of `parse_m3u` before its `url` key is set. -/
structure Pending where
  name : String
  group : String
  category : String
  tvg_id : Option String
  tvg_name : Option String
  tvg_logo : Option String
  tvg_chno : Option String
deriving DecidableEq, Repr

/-- `pending["url"] = url; channels.append(pending)`. -/
def Pending.withUrl (p : Pending) (url : String) : Channel :=
  ⟨p.name, p.group, p.category, url, p.tvg_id, p.tvg_name, p.tvg_logo, p.tvg_chno⟩

/-- The `pending` dict built for a successfully parsed `#EXTINF` line. -/
def mkPending (attrs : List (String × String)) (displayName : String) : Pending :=
  let group := deriveGroup attrs
  let tvgId := safeText (dictGet attrs "tvg-id") ""
  let tvgName := safeText (dictGet attrs "tvg-name") ""
  let tvgLogo := safeText (dictGet attrs "tvg-logo") ""
  let tvgChno := safeText (dictGet attrs "tvg-chno") ""
  { name := safeText (some displayName) "Unknown"
    group := group
    category := normalizeCategory group
    tvg_id := if tvgId = "" then none else some tvgId
    tvg_name := if tvgName = "" then none else some tvgName
    tvg_logo := if tvgLogo = "" then none else some tvgLogo
    tvg_chno := if tvgChno = "" then none else some tvgChno }

/-- The placeholder channel emitted for a URL line with no pending entry. -/
def defaultChannel (url : String) : Channel :=
  ⟨"Unknown", "Unknown", "other", url, none, none, none, none⟩

/-- The `for raw_line in playlist_text.splitlines()` loop of `parse_m3u`,
threading the `pending` state; the final clause is the end-of-input flush
(`pending` has no `url` key, so `_safe_text(None, "about:blank")`). -/
def parseLoop (pending : Option Pending) : List String → List Channel
  | [] =>
    match pending with
    | some p => [p.withUrl "about:blank"]
    | none => []
  | raw :: rest =>
    let line := trimS raw
    if line = "" then parseLoop pending rest
    else if startsWithS line "#EXTINF" then
      match parseExtinfLine line with
      | .error _ => parseLoop none rest
      | .ok (attrs, displayName) => parseLoop (some (mkPending attrs displayName)) rest
    else if startsWithS line "#" then parseLoop pending rest
    else
      let url := safeText (some line) "about:blank"
      match pending with
      | some p => p.withUrl url :: parseLoop none rest
      | none => defaultChannel url :: parseLoop none rest

/-- `parse_m3u(playlist_text)`. -/
def parseM3u (playlistText : String) : List Channel :=
  parseLoop none (splitLinesS playlistText)

/-! ## `backend/app/services/iptv.py` — `fetch_m3u` retry loop

The network is abstracted as a map from attempt number (1-based) to what that
attempt observes; everything after `session.get` returns — the status check,
the empty-body check, the exception classification, the backoff sleeps and the
final message — is embedded from the source. -/

/-- What one HTTP attempt observes: a response, or one of the exception
classes caught by the loop. -/
inductive AttemptOutcome
  | success (status : Nat) (body : String)
  | sslError
  | timeout
  | connectionError
  | requestError
  | unexpectedError
deriving DecidableEq, Repr

/-- One iteration of the attempt loop body: `.ok body` when the attempt
`return`s, `.error reason` with the `last_reason` string otherwise.  The
`_FetchFailure` reasons are the exception messages (`HTTP {code}`,
`empty playlist`); the caught request exceptions map to fixed tags. -/
def attemptEval (o : AttemptOutcome) : Except String String :=
  match o with
  | .success status body =>
    if ¬ status = 200 then .error ("HTTP " ++ toString status)
    else if trimS body = "" then .error "empty playlist"
    else .ok body
  | .sslError => .error "ssl_error"
  | .timeout => .error "timeout"
  | .connectionError => .error "connection_error"
  | .requestError => .error "request_error"
  | .unexpectedError => .error "unexpected_error"

/-- The message built after the loop from the last observed reason. -/
def finalMessage (lastReason : Option String) : String :=
  match lastReason with
  | some r =>
    if r = "ssl_error" then "SSL verification failed (self-signed certificate)"
    else if r = "timeout" then "IPTV request timed out"
    else if r = "connection_error" then "IPTV server closed the connection"
    else if ¬ r = "" then "IPTV request failed: " ++ r
    else "Failed to fetch IPTV playlist after retries"
  | none => "Failed to fetch IPTV playlist after retries"

/-- Observable behaviour of one `fetch_m3u` call: how many attempts ran, the
forced `time.sleep` durations in seconds, and the result (`.error` is the
`IPTVFetchError` message). -/
structure FetchResult where
  attemptsMade : Nat
  sleeps : List Nat
  outcome : Except String String
deriving Repr

/-- The `for attempt in range(1, attempts + 1)` loop: `remaining + made = 3`;
a failed attempt sleeps `2 ** (attempt - 1)` seconds unless it was the last,
and the loop falling through raises with `finalMessage`. -/
def fetchGo (outcomes : Nat → AttemptOutcome) :
    Nat → Nat → Option String → FetchResult
  | 0, made, lastReason => ⟨made, [], .error (finalMessage lastReason)⟩
  | remaining + 1, made, _ =>
    match attemptEval (outcomes (made + 1)) with
    | .ok body => ⟨made + 1, [], .ok body⟩
    | .error reason =>
      let rest := fetchGo outcomes remaining (made + 1) (some reason)
      ⟨rest.attemptsMade,
       (if ¬ remaining = 0 then [2 ^ made] else []) ++ rest.sleeps,
       rest.outcome⟩

/-- `fetch_m3u` with `attempts = 3`. -/
def fetchM3u (outcomes : Nat → AttemptOutcome) : FetchResult :=
  fetchGo outcomes 3 0 none

/-! ## `backend/app/services/cache.py` — channel dicts and aggregates -/

/-- A channel dict as the cache layer sees it: the four keys
`_normalize_channel`/`_compute_stats`/`_compute_group_counts` read or write
(other keys such as `tvg_*` pass through untouched and play no part in the
claims). -/
structure ChanDict where
  name : Option String
  url : Option String
  group : Option String
  category : Option String
deriving DecidableEq, Repr

/-- `_normalize_channel(channel)`. -/
def normalizeChannel (ch : ChanDict) : ChanDict :=
  let name := ch.name.getD "Unknown"
  let url := ch.url.getD "about:blank"
  -- `str(channel.get("group") or "Unknown").strip() or "Unknown"`
  let group0 := match ch.group with
    | none => "Unknown"
    | some s => if s = "" then "Unknown" else s
  let group := if trimS group0 = "" then "Unknown" else trimS group0
  let rawCategory := trimS (ch.category.getD "")
  { name := some name, url := some url, group := some group,
    category := some (coerceCategory (some rawCategory) (some group)) }

/-- The bucket a channel falls into in `_compute_stats`. -/
def statKey (ch : ChanDict) : String :=
  -- `coerce_category(str(ch.get("category") or "").strip(), str(ch.get("group") or ""))`
  let normalized :=
    coerceCategory (some (trimS (ch.category.getD ""))) (some (ch.group.getD ""))
  if (["tv", "movies", "series", "other"] : List String).contains normalized
  then normalized else "other"

/-- The four counters of `_compute_stats` before `total` is added. -/
structure Stats4 where
  tv : Int
  movies : Int
  series : Int
  other : Int
deriving DecidableEq, Repr

/-- One iteration of the `_compute_stats` loop:
`stats[normalized if normalized in stats else "other"] += 1`. -/
def statStep (s : Stats4) (ch : ChanDict) : Stats4 :=
  let k := statKey ch
  if k = "tv" then { s with tv := s.tv + 1 }
  else if k = "movies" then { s with movies := s.movies + 1 }
  else if k = "series" then { s with series := s.series + 1 }
  else { s with other := s.other + 1 }

/-- The counting loop of `_compute_stats`. -/
def computeStats4 (channels : List ChanDict) : Stats4 :=
  channels.foldl statStep ⟨0, 0, 0, 0⟩

/-- `sum(stats.values())` over the four counters. -/
def sum4 (s : Stats4) : Int :=
  s.tv + s.movies + s.series + s.other

/-- A stats dict: the five integer-valued keys, each possibly absent. -/
structure StatsDict where
  tv : Option Int
  movies : Option Int
  series : Option Int
  other : Option Int
  total : Option Int
deriving DecidableEq, Repr

/-- `_compute_stats(channels)` (all five keys present,
`total = sum(stats.values())`). -/
def computeStatsDict (channels : List ChanDict) : StatsDict :=
  let s := computeStats4 channels
  ⟨some s.tv, some s.movies, some s.series, some s.other, some (sum4 s)⟩

/-- `counts[group] = counts.get(group, 0) + 1` on an insertion-ordered dict. -/
def bumpCount (k : String) : List (String × Int) → List (String × Int)
  | [] => [(k, 1)]
  | (k', v) :: rest =>
    if k' = k then (k', v + 1) :: rest else (k', v) :: bumpCount k rest

/-- `str(ch.get("group") or "Unknown").strip() or "Unknown"`. -/
def groupKeyOf (ch : ChanDict) : String :=
  let g0 := match ch.group with
    | none => "Unknown"
    | some s => if s = "" then "Unknown" else s
  if trimS g0 = "" then "Unknown" else trimS g0

/-- `_compute_group_counts(channels)`. -/
def computeGroupCounts (channels : List ChanDict) : List (String × Int) :=
  channels.foldl (fun m ch => bumpCount (groupKeyOf ch) m) []

/-- Ascending code-point order on strings, Python `sorted` order. -/
def strLeB (a b : String) : Bool :=
  a == b || decide (a < b)

/-- Insert into an ascending list. -/
def insertSorted (a : String) : List String → List String
  | [] => [a]
  | b :: bs => if strLeB a b then a :: b :: bs else b :: insertSorted a bs

/-- Python `sorted` on a list of strings. -/
def sortStrings (l : List String) : List String :=
  l.foldr insertSorted []

/-- `sorted({ch.get("category", "other") for ch in channels})` (in `save_cache`
the key is always present, so the `"other"` default is inert there). -/
def sortedCategories (channels : List ChanDict) : List String :=
  sortStrings ((channels.map (fun ch => ch.category.getD "other")).dedup)

/-! ## `backend/app/services/cache.py` — payload shape, save and load -/

/-- The top-level `channels` value of a cache payload: absent, present but not
a JSON list, or a list of channel dicts (the loader only normalizes entries
that are dicts; entries of the modelled lists are all dicts). -/
inductive ChannelsField
  | absent
  | notList
  | list (chs : List ChanDict)
deriving DecidableEq, Repr

/-- The top-level `stats` value: absent, present but not a dict, or a dict. -/
inductive StatsField
  | missing
  | notDict
  | dict (d : StatsDict)
deriving DecidableEq, Repr

/-- A parsed cache payload dict: exactly the top-level keys the cache layer
reads or writes, each with its present/absent state.  `cache_header` only
matters by presence (its contents — pid, cwd, interpreter path — are
environment noise no claim touches).  For the doubly-optional fields the
outer `Option` is key presence and the inner one a JSON `null`. -/
structure PayloadJson where
  host : Option String
  timestamp : Option String
  channels : ChannelsField
  channel_count : Option Int
  stats : StatsField
  categories : Option (List String)
  group_counts : Option (List (String × Int))
  cache_header : Bool
  last_refresh_status : Option String
  last_refresh_error : Option (Option String)
  last_successful_refresh : Option (Option String)
deriving DecidableEq, Repr

/-- The payload dict built and written by `save_cache(host, channels)`;
`now` is `_now().isoformat()`. -/
def saveCachePayload (host now : String) (channels : List ChanDict) : PayloadJson :=
  let normalized := channels.map normalizeChannel
  { host := some host
    timestamp := some now
    channels := .list normalized
    channel_count := some (normalized.length : Int)
    stats := .dict (computeStatsDict normalized)
    categories := some (sortedCategories normalized)
    group_counts := some (computeGroupCounts normalized)
    cache_header := true
    last_refresh_status := some "success"
    last_refresh_error := some none
    last_successful_refresh := some (some now) }

/-- The bytes at the cache path, once read and JSON-decoded: either
`json.load` raises (`malformed`) or yields a payload dict. -/
inductive CacheJson
  | malformed
  | obj (p : PayloadJson)
deriving DecidableEq, Repr

/-- `path.with_suffix(f".corrupt-{timestamp}.json")` applied to
`channels.json`. -/
def quarantineName (ts : String) : String :=
  "channels.corrupt-" ++ ts ++ ".json"

/-- What one `load_cache()` call returns and does to the filesystem:
the returned payload (`None` ↦ `none`), the content left at the cache path,
and the quarantined files it created (name, content). -/
structure LoadResult where
  payload : Option PayloadJson
  fileAfter : Option CacheJson
  quarantined : List (String × CacheJson)
deriving DecidableEq, Repr

/-- The in-memory normalization `load_cache` performs on a payload whose
`channels` is the list `chs` (in-place channel normalization, then the
`setdefault` backfills, in source order). -/
def loadNormalize (p : PayloadJson) (chs : List ChanDict) : PayloadJson :=
  let channels' := chs.map normalizeChannel
  let channelCount := p.channel_count.getD (channels'.length : Int)
  let stats' : StatsDict :=
    match p.stats with
    | .dict d => if d.total = none then { d with total := some channelCount } else d
    | _ => computeStatsDict channels'
  { host := p.host
    timestamp := p.timestamp
    channels := .list channels'
    channel_count := some channelCount
    stats := .dict stats'
    categories := some (p.categories.getD (sortedCategories channels'))
    group_counts := some (p.group_counts.getD (computeGroupCounts channels'))
    cache_header := true
    last_refresh_status := some (p.last_refresh_status.getD "success")
    last_refresh_error := some (match p.last_refresh_error with
      | some v => v
      | none => none)
    last_successful_refresh := some (match p.last_successful_refresh with
      | some v => v
      | none => p.timestamp) }

/-- `load_cache()`, given the current content at the cache path (`none` when
the file does not exist) and the quarantine timestamp `_now().strftime(...)`.
A malformed JSON file and a payload whose `channels` is missing or not a list
are quarantined via `_invalidate_cache_file` (a rename: the original path
becomes empty); a successful load leaves the file untouched. -/
def loadCache (ts : String) (file : Option CacheJson) : LoadResult :=
  match file with
  | none => ⟨none, none, []⟩
  | some .malformed => ⟨none, none, [(quarantineName ts, .malformed)]⟩
  | some (.obj p) =>
    match p.channels with
    | .list chs => ⟨some (loadNormalize p chs), some (.obj p), []⟩
    | _ => ⟨none, none, [(quarantineName ts, .obj p)]⟩

/-! ## `backend/app/services/cache.py` — `is_cache_valid` -/

/-- `is_cache_valid(cache, host, ttl_seconds)`.  `parseTs` abstracts
`datetime.fromisoformat` (`none` = `ValueError`), timestamps and `now` being
instants on one comparable axis, in seconds. -/
def isCacheValid (parseTs : String → Option Int) (now : Int)
    (cache : PayloadJson) (host : String) (ttl : Int) : Bool :=
  -- `cache.get("host") != host`
  if ¬ cache.host = some host then false
  else
    match cache.timestamp with
    | none => false                     -- `if not timestamp` (absent)
    | some ts =>
      if ts = "" then false             -- `if not timestamp` (empty string)
      else
        match parseTs ts with
        | none => false                 -- `except ValueError`
        | some t => if now > t + ttl then false else true

/-! ## `backend/app/services/cache.py` — refresh state -/

/-- The module-level refresh state (`_REFRESHING`, `_REFRESH_STARTED_AT`,
`_LAST_REFRESH_STATUS`, `_LAST_REFRESH_ERROR`, `_LAST_SUCCESSFUL_REFRESH`).
The two locks serialize access, so concurrent calls act in some sequential
order on this state. -/
structure RefreshState where
  refreshing : Bool
  startedAt : Option String
  lastStatus : Option String
  lastError : Option String
  lastSuccess : Option String
deriving DecidableEq, Repr

/-- `try_set_refreshing()`; `now` is `_now().isoformat()`. -/
def trySetRefreshing (now : String) (s : RefreshState) : Bool × RefreshState :=
  if s.refreshing then (false, s)
  else
    (true, { s with refreshing := true, startedAt := some now,
                     lastStatus := some "loading" })

/-- A sequence of `try_set_refreshing()` calls run back to back (the order the
lock serializes concurrent callers into), collecting each call's result. -/
def runAttempts (s : RefreshState) : List String → List Bool × RefreshState
  | [] => ([], s)
  | now :: rest =>
    let r := trySetRefreshing now s
    let rs := runAttempts r.2 rest
    (r.1 :: rs.1, rs.2)

/-! ## `backend/app/services/cache.py` — `get_stats` -/

/-- The dict `get_stats` returns (all five keys, `int`-coerced). -/
structure StatsOut where
  tv : Int
  movies : Int
  series : Int
  other : Int
  total : Int
deriving DecidableEq, Repr

/-- Python truthiness of a payload dict: `not cache_payload` is true exactly
when every modelled key is absent (the empty dict). -/
def PayloadJson.isEmptyDict (p : PayloadJson) : Bool :=
  decide (p.host = none) && decide (p.timestamp = none) &&
  decide (p.channels = .absent) && decide (p.channel_count = none) &&
  decide (p.stats = .missing) && decide (p.categories = none) &&
  decide (p.group_counts = none) && (! p.cache_header) &&
  decide (p.last_refresh_status = none) &&
  decide (p.last_refresh_error = none) &&
  decide (p.last_successful_refresh = none)

/-- `cache_payload.get("channels", [])` as a list (a non-list `channels`
value combined with missing stats would crash the Python recompute; no claim
reaches that pairing). -/
def channelsOf (p : PayloadJson) : List ChanDict :=
  match p.channels with
  | .list chs => chs
  | _ => []

/-- `not isinstance(stats, dict) or any(key not in stats for key in (...))`. -/
def statsIncomplete : StatsField → Bool
  | .dict d =>
    decide (d.tv = none) || decide (d.movies = none) ||
    decide (d.series = none) || decide (d.other = none)
  | _ => true

/-- `get_stats(cache_payload)`: the returned counts and the payload as left
behind (Python mutates it in place; the recomputed stats dict is stored under
`"stats"`, and `stats["total"]` is assigned on the dict the payload holds). -/
def getStats (p? : Option PayloadJson) : StatsOut × Option PayloadJson :=
  match p? with
  | none => (⟨0, 0, 0, 0, 0⟩, none)
  | some p =>
    if p.isEmptyDict then (⟨0, 0, 0, 0, 0⟩, some p)
    else
      let channels := channelsOf p
      let d1 : StatsDict :=
        match p.stats with
        | .dict d => if statsIncomplete (.dict d) then computeStatsDict channels else d
        | _ => computeStatsDict channels
      let total := d1.total.getD (p.channel_count.getD (channels.length : Int))
      let d2 := { d1 with total := some total }
      (⟨d2.tv.getD 0, d2.movies.getD 0, d2.series.getD 0, d2.other.getD 0, total⟩,
       some { p with stats := .dict d2 })

/-! ## Spec-side restatements and concrete fixtures -/

/-- The spec's category table as literally worded: checked in the fixed order
movies, series, tv against the lower-cased group string, first match winning,
falling back to `other`.  Stated independently of `CATEGORY_KEYWORDS` so the
source table can be compared against it. -/
def categorySpecOrder (g : String) : String :=
  let n := lowerS (trimS g)
  if (["movie", "movies", "vod", "film", "cinema"] : List String).any
      (fun kw => containsSub n kw) then "movies"
  else if (["series", "shows", "show", "season", "episode"] : List String).any
      (fun kw => containsSub n kw) then "series"
  else if (["live", "tv", "sports", "sport", "news", "kids", "music",
            "entertainment"] : List String).any
      (fun kw => containsSub n kw) then "tv"
  else "other"

/-- A stub `fromisoformat`: parses exactly the string `"TS"`, to the
instant 100. -/
def tsStub : String → Option Int :=
  fun s => if s = "TS" then some 100 else none

/-- The payload dict `{}` (every key absent). -/
def emptyPayload : PayloadJson :=
  ⟨none, none, .absent, none, .missing, none, none, false, none, none, none⟩

/-- The payload parsed from a cache file containing
`{"channels": "not-a-list"}`. -/
def notListPayload : PayloadJson :=
  ⟨none, none, .notList, none, .missing, none, none, false, none, none, none⟩

/-- A payload `{"host": "h", "timestamp": "TS"}`. -/
def hostTsPayload : PayloadJson :=
  ⟨some "h", some "TS", .absent, none, .missing, none, none, false, none, none, none⟩

/-! ## Theorems -/

/-- The source keyword table agrees with the spec's fixed movies/series/tv
order with first match winning. -/
theorem normalizeCategory_eq_spec (g : String) :
    normalizeCategory g = categorySpecOrder g := by
  unfold normalizeCategory categorySpecOrder CATEGORY_KEYWORDS
  by_cases h0 : lowerS (trimS g) = ""
  · simp only [h0]
    decide
  · simp only [h0, if_false, List.findSome?]
    by_cases h1 : (["movie", "movies", "vod", "film", "cinema"] : List String).any
        (fun kw => containsSub (lowerS (trimS g)) kw)
    · simp [h1]
    · by_cases h2 : (["series", "shows", "show", "season", "episode"] :
          List String).any (fun kw => containsSub (lowerS (trimS g)) kw)
      · simp [h1, h2]
      · by_cases h3 : (["live", "tv", "sports", "sport", "news", "kids", "music",
            "entertainment"] : List String).any
            (fun kw => containsSub (lowerS (trimS g)) kw)
        · simp [h1, h2, h3]
        · simp [h1, h2, h3]

/-- C7: category derivation checks the keyword table in the fixed order
movies, series, tv (falling back to `other`) against the lower-cased group
string, first match winning; in particular `"Live Movie Night"` — which
contains both the tv keyword `live` and the movies keyword `movie` — yields
`movies`. -/
theorem c7_category_precedence :
    (∀ g : String, normalizeCategory g = categorySpecOrder g) ∧
    normalizeCategory "Live Movie Night" = "movies" :=
  ⟨normalizeCategory_eq_spec, by decide⟩

/-- Once the state is refreshing, every further sequential
`try_set_refreshing` call returns false and is a no-op. -/
theorem runAttempts_refreshing (nows : List String) (s : RefreshState)
    (h : s.refreshing = true) :
    (runAttempts s nows).1.count true = 0 ∧ (runAttempts s nows).2 = s := by
  induction nows generalizing s with
  | nil => simp [runAttempts]
  | cons a rest ih =>
    have := ih s h
    simp [runAttempts, trySetRefreshing, h, this.1, this.2]

/-- C8: `try_set_refreshing` on a non-refreshing state flips it to
refreshing, records `started_at` (and sets the loading status), returning
true; on a refreshing state it returns false leaving the state unchanged; so
any sequence of calls serialized by the lock from a non-refreshing state has
exactly one winner. -/
theorem c8_single_flight :
    (∀ (now : String) (s : RefreshState), s.refreshing = false →
      trySetRefreshing now s =
        (true, { s with refreshing := true, startedAt := some now,
                        lastStatus := some "loading" })) ∧
    (∀ (now : String) (s : RefreshState), s.refreshing = true →
      trySetRefreshing now s = (false, s)) ∧
    (∀ (s : RefreshState) (nows : List String), s.refreshing = false →
      nows ≠ [] → (runAttempts s nows).1.count true = 1) := by
  refine ⟨fun now s h => by simp [trySetRefreshing, h],
          fun now s h => by simp [trySetRefreshing, h], ?_⟩
  intro s nows h hne
  match nows with
  | [] => exact absurd rfl hne
  | now :: rest =>
    have hwin : trySetRefreshing now s =
        (true, { s with refreshing := true, startedAt := some now,
                        lastStatus := some "loading" }) := by
      simp [trySetRefreshing, h]
    have hrest := runAttempts_refreshing rest
      { s with refreshing := true, startedAt := some now,
               lastStatus := some "loading" } rfl
    simp [runAttempts, hwin, hrest.1]

/-- C8 witness: five serialized acquisition attempts from the idle state have
exactly one winner. -/
theorem c8_single_flight_witness :
    (runAttempts ⟨false, none, none, none, none⟩
      ["t1", "t2", "t3", "t4", "t5"]).1.count true = 1 :=
  c8_single_flight.2.2 ⟨false, none, none, none, none⟩
    ["t1", "t2", "t3", "t4", "t5"] rfl (by simp)

/-- C2: loading a cache file whose top-level `channels` is not a list moves
the file to a timestamped corrupt name (leaving the cache path empty) and
returns absent; an immediately following load also returns absent since the
file is gone from the original path. -/
theorem c2_notlist_quarantine (ts ts' : String) (p : PayloadJson)
    (h : p.channels = .notList) :
    (loadCache ts (some (.obj p))).payload = none ∧
    (loadCache ts (some (.obj p))).fileAfter = none ∧
    (loadCache ts (some (.obj p))).quarantined =
      [(quarantineName ts, .obj p)] ∧
    (loadCache ts' (loadCache ts (some (.obj p))).fileAfter).payload = none := by
  simp [loadCache, h]

/-- C2 witness: the file `{"channels": "not-a-list"}`. -/
theorem c2_notlist_quarantine_witness :
    (loadCache "20240101T000000" (some (.obj notListPayload))).payload = none ∧
    (loadCache "20240101T000000" (some (.obj notListPayload))).fileAfter = none ∧
    (loadCache "20240101T000000" (some (.obj notListPayload))).quarantined =
      [(quarantineName "20240101T000000", .obj notListPayload)] ∧
    (loadCache "20240101T000001"
      (loadCache "20240101T000000" (some (.obj notListPayload))).fileAfter).payload
      = none :=
  c2_notlist_quarantine "20240101T000000" "20240101T000001" notListPayload rfl

/-- C6: `is_cache_valid` is true exactly when the host matches, the timestamp
is present and parses, and `now` is at most `timestamp + ttl`; being a total
function, it returns false rather than raising everywhere else. -/
theorem c6_is_cache_valid_iff (parseTs : String → Option Int) (now : Int)
    (cache : PayloadJson) (host : String) (ttl : Int)
    (hempty : parseTs "" = none) :
    isCacheValid parseTs now cache host ttl = true ↔
      (cache.host = some host ∧
       ∃ ts t, cache.timestamp = some ts ∧ parseTs ts = some t ∧
         now ≤ t + ttl) := by
  unfold isCacheValid
  by_cases hh : cache.host = some host
  · cases hts : cache.timestamp with
    | none => simp [hh, hts]
    | some ts =>
      by_cases he : ts = ""
      · subst he
        simp [hh, hts, hempty]
      · cases hp : parseTs ts with
        | none => simp [hh, hts, he, hp]
        | some t =>
          by_cases hle : now > t + ttl
          · simp [hh, hts, he, hp, hle]
          · simp [hh, hts, he, hp, hle]
            omega
  · simp [hh]

/-- C6 witness: a fresh snapshot for the matching host validates. -/
theorem c6_is_cache_valid_witness :
    isCacheValid tsStub 120 hostTsPayload "h" 50 = true :=
  (c6_is_cache_valid_iff tsStub 120 hostTsPayload "h" 50 rfl).mpr
    ⟨rfl, "TS", 100, rfl, rfl, by omega⟩

/-- C3: when every attempt times out, `fetch_m3u` makes exactly 3 attempts,
sleeps 1s after the first failure and 2s after the second (none after the
last), and fails with the message classified from the last reason
`timeout`. -/
theorem c3_fetch_all_timeouts (outcomes : Nat → AttemptOutcome)
    (h1 : outcomes 1 = .timeout) (h2 : outcomes 2 = .timeout)
    (h3 : outcomes 3 = .timeout) :
    fetchM3u outcomes = ⟨3, [1, 2], .error "IPTV request timed out"⟩ := by
  have e1 : attemptEval (outcomes 1) = .error "timeout" := by rw [h1]; rfl
  have e2 : attemptEval (outcomes 2) = .error "timeout" := by rw [h2]; rfl
  have e3 : attemptEval (outcomes 3) = .error "timeout" := by rw [h3]; rfl
  show fetchGo outcomes (2 + 1) 0 none = _
  rw [fetchGo]
  simp only [show (0 : Nat) + 1 = 1 from rfl, e1]
  rw [show (2 : Nat) = 1 + 1 from rfl, fetchGo]
  simp only [show (1 : Nat) + 1 = 2 from rfl, e2]
  rw [fetchGo]
  simp only [show (2 : Nat) + 1 = 3 from rfl, e3]
  rw [fetchGo]
  rfl

/-- C3 witness: the all-timeouts schedule. -/
theorem c3_fetch_all_timeouts_witness :
    fetchM3u (fun _ => .timeout) = ⟨3, [1, 2], .error "IPTV request timed out"⟩ :=
  c3_fetch_all_timeouts (fun _ => .timeout) rfl rfl rfl

/-- C10 counterexample: the empty payload dict is not absent and its `stats`
key is missing, yet `get_stats` neither writes recomputed stats back nor
assigns `stats["total"]` — Python's `if not cache_payload` treats the empty
dict like `None` and returns zeroed counts leaving the payload untouched. -/
theorem c10_counterexample :
    emptyPayload.stats = .missing ∧
    getStats (some emptyPayload) = (⟨0, 0, 0, 0, 0⟩, some emptyPayload) :=
  ⟨rfl, by decide⟩

/-- C10 (amended): for every payload that is a non-empty dict, `get_stats`
leaves behind a payload whose `stats` is a dict carrying the returned
`total`; and whenever the incoming `stats` was missing, not a dict, or
lacked one of the four category keys, that dict is the freshly recomputed
one. -/
theorem c10_get_stats_mutation (p : PayloadJson) (h : p.isEmptyDict = false) :
    ∃ d : StatsDict,
      (getStats (some p)).2 = some { p with stats := .dict d } ∧
      d.total = some (getStats (some p)).1.total ∧
      (statsIncomplete p.stats = true → d = computeStatsDict (channelsOf p)) := by
  unfold getStats
  simp only [h, Bool.false_eq_true, if_false]
  cases hs : p.stats with
  | dict d0 =>
    by_cases hinc : statsIncomplete (.dict d0) = true
    · refine ⟨computeStatsDict (channelsOf p), ?_, ?_, fun _ => rfl⟩
      · simp [hinc, computeStatsDict]
      · simp [hinc, computeStatsDict]
    · simp only [hinc, if_false]
      refine ⟨{ d0 with total := some (d0.total.getD
          (p.channel_count.getD ((channelsOf p).length : Int))) }, ?_, rfl, ?_⟩
      · simp [Bool.not_eq_true] at hinc
        simp [hinc]
      · intro hcontra
        exact absurd hcontra (by simp)
  | missing =>
    refine ⟨computeStatsDict (channelsOf p), ?_, ?_, fun _ => rfl⟩
    · simp [computeStatsDict]
    · simp [computeStatsDict]
  | notDict =>
    refine ⟨computeStatsDict (channelsOf p), ?_, ?_, fun _ => rfl⟩
    · simp [computeStatsDict]
    · simp [computeStatsDict]

/-- C10 witness: a one-key payload (`{"host": "h", "timestamp": "TS"}`
restricted to its non-stats keys) with missing stats gets the recomputed
stats dict written back, total included. -/
theorem c10_get_stats_mutation_witness :
    ∃ d : StatsDict,
      (getStats (some hostTsPayload)).2 =
        some { hostTsPayload with stats := .dict d } ∧
      d.total = some (getStats (some hostTsPayload)).1.total ∧
      (statsIncomplete hostTsPayload.stats = true →
        d = computeStatsDict (channelsOf hostTsPayload)) :=
  c10_get_stats_mutation hostTsPayload (by decide)

/-- Each `_compute_stats` loop iteration increments exactly one counter. -/
theorem statStep_sum (s : Stats4) (ch : ChanDict) :
    sum4 (statStep s ch) = sum4 s + 1 := by
  simp only [statStep]
  split_ifs <;> simp [sum4] <;> ring

/-- The `_compute_stats` counting loop adds the list length to the counter
sum. -/
theorem foldl_statStep_sum (l : List ChanDict) :
    ∀ s : Stats4, sum4 (l.foldl statStep s) = sum4 s + l.length := by
  induction l with
  | nil => intro s; simp
  | cons a l ih =>
    intro s
    rw [List.foldl_cons, ih (statStep s a), statStep_sum]
    simp only [List.length_cons, Nat.cast_add, Nat.cast_one]
    ring

/-- `_compute_stats` buckets partition the channel list:
`tv + movies + series + other = len(channels)`. -/
theorem computeStats4_sum (l : List ChanDict) :
    sum4 (computeStats4 l) = (l.length : Int) := by
  have := foldl_statStep_sum l ⟨0, 0, 0, 0⟩
  simpa [computeStats4, sum4] using this

/-- C1: saving any channel list and loading it back yields a payload whose
`channel_count` equals the list length and whose stats dict satisfies
`total = tv + movies + series + other = channel_count`. -/
theorem c1_save_load_roundtrip (host now ts : String) (chs : List ChanDict) :
    ∃ loaded : PayloadJson,
      (loadCache ts (some (.obj (saveCachePayload host now chs)))).payload =
        some loaded ∧
      loaded.channel_count = some (chs.length : Int) ∧
      ∃ tv mv sr ot : Int,
        loaded.stats =
          .dict ⟨some tv, some mv, some sr, some ot, some (tv + mv + sr + ot)⟩ ∧
        tv + mv + sr + ot = (chs.length : Int) := by
  refine ⟨loadNormalize (saveCachePayload host now chs) (chs.map normalizeChannel),
          rfl, ?_, ?_⟩
  · simp [loadNormalize, saveCachePayload]
  · refine ⟨(computeStats4 (chs.map normalizeChannel)).tv,
            (computeStats4 (chs.map normalizeChannel)).movies,
            (computeStats4 (chs.map normalizeChannel)).series,
            (computeStats4 (chs.map normalizeChannel)).other, rfl, ?_⟩
    have := computeStats4_sum (chs.map normalizeChannel)
    simpa [sum4] using this

/-- A line starting with the entry marker starts with `#`. -/
theorem startsWithS_hash_of_extinf (s : String)
    (h : startsWithS s "#EXTINF" = true) : startsWithS s "#" = true := by
  unfold startsWithS at h ⊢
  rw [show "#EXTINF".toList = ['#', 'E', 'X', 'T', 'I', 'N', 'F'] from rfl] at h
  rw [show "#".toList = ['#'] from rfl]
  cases hl : s.toList with
  | nil => rw [hl] at h; simp [List.isPrefixOf] at h
  | cons c cs =>
    rw [hl] at h
    simp [List.isPrefixOf] at h ⊢
    exact h.1

/-- `split(sep, 1)` finds nothing when the separator is absent. -/
theorem splitFirst_eq_none (sep : Char) (l : List Char)
    (h : l.contains sep = false) : splitFirst sep l = none := by
  induction l with
  | nil => rfl
  | cons c cs ih =>
    simp only [List.contains_cons, Bool.or_eq_false_iff] at h
    have hcne : ¬ c = sep := by
      intro he; rw [he] at h; simp at h
    unfold splitFirst
    rw [if_neg hcne, ih h.2]
    rfl

/-- C5: a playlist whose first line is an entry marker missing its comma
delimiter, followed by a well-formed entry and its URL, parses to exactly the
well-formed channel; the malformed line contributes nothing and parsing
continues (the `ValueError` is caught, the pending entry dropped). -/
theorem c5_malformed_extinf_recovery (bad : String)
    (htrim : trimS bad = bad)
    (hstart : startsWithS bad "#EXTINF" = true)
    (hnocomma : bad.toList.contains ',' = false) :
    parseLoop none [bad, "#EXTINF:-1,Good", "http://example.com/good.ts"] =
      [⟨"Good", "Unknown", "other", "http://example.com/good.ts",
        none, none, none, none⟩] := by
  have hne : ¬ bad = "" := by
    intro he; rw [he] at hstart; exact absurd hstart (by decide)
  have hsplit : splitFirstS bad ',' = none := by
    unfold splitFirstS
    rw [splitFirst_eq_none ',' bad.toList hnocomma]
    rfl
  have herr : parseExtinfLine bad = .error "EXTINF line missing display name" := by
    unfold parseExtinfLine
    rw [hsplit]
    simp [hstart]
  rw [parseLoop, htrim]
  simp only [hne, if_false, hstart, if_true, herr]
  decide

/-- C5 witness: a concrete comma-less entry-marker line. -/
theorem c5_malformed_extinf_recovery_witness :
    parseLoop none ["#EXTINF:-1 tvg-id=\"x\" no delimiter here",
                    "#EXTINF:-1,Good", "http://example.com/good.ts"] =
      [⟨"Good", "Unknown", "other", "http://example.com/good.ts",
        none, none, none, none⟩] :=
  c5_malformed_extinf_recovery "#EXTINF:-1 tvg-id=\"x\" no delimiter here"
    (by decide) (by decide) (by decide)

/-- C4 counterexample: (a) an entry-marker line whose inline name (after the
comma) is empty but which carries non-empty `tvg-name` and `tvg-id`
attributes is named `"Unknown"` — the attributes are parsed (they land in the
channel's `tvg_name`/`tvg_id` fields) yet never consulted for the name; (b)
the inline name is everything after the FIRST comma, not the part after the
last one. -/
theorem c4_counterexample :
    ((parseM3u "#EXTINF:-1 tvg-name=\"CNN\" tvg-id=\"cnn.us\",\nhttp://x/a.ts").map
        Channel.name = ["Unknown"] ∧
     (parseM3u "#EXTINF:-1 tvg-name=\"CNN\" tvg-id=\"cnn.us\",\nhttp://x/a.ts").map
        Channel.tvg_name = [some "CNN"] ∧
     (parseM3u "#EXTINF:-1 tvg-name=\"CNN\" tvg-id=\"cnn.us\",\nhttp://x/a.ts").map
        Channel.tvg_id = [some "cnn.us"]) ∧
    (parseM3u "#EXTINF:-1,A,B\nhttp://x/u.ts").map Channel.name = ["A,B"] := by
  refine ⟨⟨?_, ?_, ?_⟩, ?_⟩ <;> decide

/-- C4 (amended): for every entry-marker line the channel name is the text
after the first comma, whitespace-stripped; when that is empty the name is
the literal `"Unknown"`.  The `tvg-name`/`tvg-id` attributes are never used
as name fallbacks (the name depends only on the text after the comma). -/
theorem c4_name_from_first_comma (line url metaPart namePart : String)
    (htrim : trimS line = line)
    (hstart : startsWithS line "#EXTINF" = true)
    (hsplit : splitFirstS line ',' = some (metaPart, namePart))
    (hutrim : trimS url = url) (hune : ¬ url = "")
    (huhash : startsWithS url "#" = false) :
    (parseLoop none [line, url]).map Channel.name =
      [if trimS (trimS namePart) = "" then "Unknown"
       else trimS (trimS namePart)] := by
  have hne : ¬ line = "" := by
    intro he; rw [he] at hstart; exact absurd hstart (by decide)
  have hok : parseExtinfLine line =
      .ok (buildAttrs (attrFindall
            (trimS (removeFirstS (removeFirstS metaPart "#EXTINF:") "-1"))),
          trimS namePart) := by
    unfold parseExtinfLine
    rw [hsplit]
    simp [hstart]
  have huextinf : startsWithS url "#EXTINF" = false := by
    cases hcase : startsWithS url "#EXTINF" with
    | false => rfl
    | true =>
      rw [startsWithS_hash_of_extinf url hcase] at huhash
      exact absurd huhash (by simp)
  rw [parseLoop, htrim]
  simp only [hne, if_false, hstart, if_true, hok]
  rw [parseLoop, hutrim]
  simp only [hune, if_false, huextinf, huhash]
  simp [parseLoop, mkPending, Pending.withUrl, safeText]

/-- C4 witness: a concrete well-formed entry. -/
theorem c4_name_from_first_comma_witness :
    (parseLoop none ["#EXTINF:-1,  Foo TV", "http://x/foo.ts"]).map
        Channel.name =
      [if trimS (trimS "  Foo TV") = "" then "Unknown"
       else trimS (trimS "  Foo TV")] :=
  c4_name_from_first_comma "#EXTINF:-1,  Foo TV" "http://x/foo.ts"
    "#EXTINF:-1" "  Foo TV" (by decide) (by decide) (by decide) (by decide)
    (by decide) (by decide)

end IPTV
